import Mathlib

/-!
# gotty: is standard output a terminal?

A shallow embedding of the Go package `gotty` (`lib.go`, `excude.go`) and of the
fakes of its test file (`lib_test.go`), followed by the properties of `IsTTY`.

Conventions of the embedding

* `fs.FileMode` is a `uint32`; it is embedded as a natural number. The only
  arithmetic the package performs on it is a bitwise AND, which cannot overflow,
  so every statement below is proved for all natural numbers.
* A Go interface value is either `nil` or a value that answers its methods; a
  returned interface is therefore an `Option`. `Mode()` is a method found at
  run time on whatever value the interface holds, so on a non-nil file info it
  either returns a mode or panics (a nil pointer stored in the interface, the
  zero value `fsFileInfo{}`): the answer of `Mode()` is an `Option` too.
* A `Stat` method is Go code that reads the world outside the package (the
  operating system, or the private state of a fake). The world is a type
  parameter `W`; `Stat` receives the current world and returns its outcome
  together with the world it leaves behind.
* A call that panics yields `none`.
-/

namespace Gotty

/-! ## Values of the Go standard library used by the package -/

/-- The type `fs.FileMode` of Go (a `uint32` bit mask). -/
abbrev FileMode := Nat

/-- Position of the character-device bit: `fs.ModeCharDevice` is the eleventh
constant (`iota = 10`) of the block `1 << (32 - 1 - iota)` in `io/fs`. -/
def charDeviceBit : Nat := 32 - 1 - 10

/-- The constant `fs.ModeDir`. -/
def ModeDir : FileMode := 1 <<< (32 - 1 - 0)
/-- The constant `fs.ModeAppend`. -/
def ModeAppend : FileMode := 1 <<< (32 - 1 - 1)
/-- The constant `fs.ModeExclusive`. -/
def ModeExclusive : FileMode := 1 <<< (32 - 1 - 2)
/-- The constant `fs.ModeTemporary`. -/
def ModeTemporary : FileMode := 1 <<< (32 - 1 - 3)
/-- The constant `fs.ModeSymlink`. -/
def ModeSymlink : FileMode := 1 <<< (32 - 1 - 4)
/-- The constant `fs.ModeDevice`. -/
def ModeDevice : FileMode := 1 <<< (32 - 1 - 5)
/-- The constant `fs.ModeNamedPipe`. -/
def ModeNamedPipe : FileMode := 1 <<< (32 - 1 - 6)
/-- The constant `fs.ModeSocket`. -/
def ModeSocket : FileMode := 1 <<< (32 - 1 - 7)
/-- The constant `fs.ModeSetuid`. -/
def ModeSetuid : FileMode := 1 <<< (32 - 1 - 8)
/-- The constant `fs.ModeSetgid`. -/
def ModeSetgid : FileMode := 1 <<< (32 - 1 - 9)
/-- The constant `fs.ModeCharDevice` (`os.ModeCharDevice` is the same value). -/
def ModeCharDevice : FileMode := 1 <<< charDeviceBit
/-- The constant `fs.ModeSticky`. -/
def ModeSticky : FileMode := 1 <<< (32 - 1 - 11)
/-- The constant `fs.ModeIrregular`. -/
def ModeIrregular : FileMode := 1 <<< (32 - 1 - 12)

/-- A non-nil Go `error` value; the package never looks inside it. -/
structure GoError where
  text : String
  deriving DecidableEq, Repr

/-- The error `fs.ErrClosed` used by the test fakes. -/
def ErrClosed : GoError := ⟨"file already closed"⟩

/-- A non-nil `fs.FileInfo` of the standard library; the package calls only
its `Mode()` method. -/
structure FileInfo where
  Mode : FileMode
  deriving DecidableEq, Repr

/-- A `*os.File`: its `Stat()` asks the operating system, and returns either
`(nil, err)` with a non-nil error or a file info with a nil error. -/
structure OsFile (W : Type) where
  Stat : W → Except GoError FileInfo × W

/-! ## `lib.go`: the two interfaces and the two wrappers -/

/-- A non-nil value of the interface `FsFileInfoWrapper`. Its method `Mode()`
returns a mode, or panics (`none`), as it does when the interface holds a nil
pointer or a wrapper of a nil `fs.FileInfo`. -/
structure FsFileInfoWrapper where
  Mode : Option FileMode
  deriving DecidableEq, Repr

/-- The pair `(FsFileInfoWrapper, error)` returned by a `Stat()` method; each
component may be nil. -/
structure StatResult where
  fileInfo : Option FsFileInfoWrapper
  err : Option GoError
  deriving DecidableEq, Repr

/-- A value of the interface `osFileWrapper`: it answers `Stat()`. -/
structure osFileWrapper (W : Type) where
  Stat : W → StatResult × W

/-- The struct `osFile`, a wrapper around an `os.File` pointer. -/
structure osFile (W : Type) where
  file : OsFile W

/-- The struct `fsFileInfo`, a wrapper around an `fs.FileInfo`; the wrapped
interface is nil in the zero value `fsFileInfo{}`. -/
structure fsFileInfo where
  fileInfo : Option FileInfo
  deriving DecidableEq, Repr

/-! ## `excude.go`: the methods of the OS-backed wrappers -/

/-- The method `fsFileInfo.Mode`: the mode of the wrapped file info; the call
panics (`none`) when the wrapped interface is nil. -/
def fsFileInfo.Mode (fileInfo : fsFileInfo) : Option FileMode :=
  match fileInfo.fileInfo with
  | some info => some info.Mode
  | none => none

/-- The struct `fsFileInfo` seen through the interface `FsFileInfoWrapper`. -/
def fsFileInfo.toWrapper (fileInfo : fsFileInfo) : FsFileInfoWrapper :=
  ⟨fileInfo.Mode⟩

/-- The method `osFile.Stat`: on an error of the wrapped file it returns
`(nil, err)`, otherwise the wrapped file info and a nil error. -/
def osFile.Stat {W : Type} (file : osFile W) (w : W) : StatResult × W :=
  match file.file.Stat w with
  | (Except.error err, w') => (⟨none, some err⟩, w')
  | (Except.ok fileInfo, w') =>
    (⟨some (fsFileInfo.mk (some fileInfo)).toWrapper, none⟩, w')

/-- The struct `osFile` seen through the interface `osFileWrapper`. -/
def osFile.toWrapper {W : Type} (file : osFile W) : osFileWrapper W :=
  ⟨file.Stat⟩

/-! ## `lib.go`: the process-wide handle and `IsTTY` -/

/-- The state a call of `IsTTY` runs in: the package variable `Stdout` and the
world outside the package. -/
structure Process (W : Type) where
  Stdout : osFileWrapper W
  world : W

/-- The initial value of the package variable: `osFile{file: os.Stdout}`. -/
def defaultStdout {W : Type} (osStdout : OsFile W) : osFileWrapper W :=
  (osFile.mk osStdout).toWrapper

/-- The function `IsTTY`. It calls `Stdout.Stat()`; with a nil error it returns
`fileInfo.Mode()&os.ModeCharDevice != 0`, where the call `fileInfo.Mode()`
panics (`none`) on a nil `fileInfo` and on a `fileInfo` whose `Mode()` panics;
with a non-nil error it returns `false`. The second component is the process
state the call leaves behind. -/
def IsTTY {W : Type} (p : Process W) : Option Bool × Process W :=
  match p.Stdout.Stat p.world with
  | (⟨fileInfo, none⟩, w) =>
    match fileInfo with
    | some fi =>
      match fi.Mode with
      | some mode => (some (mode &&& ModeCharDevice != 0), { p with world := w })
      | none => (none, { p with world := w })
    | none => (none, { p with world := w })
  | (⟨_, some _⟩, w) => (some false, { p with world := w })

/-! ## `lib_test.go`: the fakes -/

/-- The test struct `tFsFileInfo`, a fake file info. -/
structure tFsFileInfo where
  modeFileMode : FileMode
  deriving DecidableEq, Repr

/-- The method `tFsFileInfo.Mode`. -/
def tFsFileInfo.Mode (fInfo : tFsFileInfo) : FileMode :=
  fInfo.modeFileMode

/-- The struct `tFsFileInfo` seen through the interface `FsFileInfoWrapper`. -/
def tFsFileInfo.toWrapper (fInfo : tFsFileInfo) : FsFileInfoWrapper :=
  ⟨some fInfo.Mode⟩

/-- A nil `*tFsFileInfo` stored in the interface `FsFileInfoWrapper`: the
interface value is not nil, and calling `Mode()` on it dereferences the nil
pointer and panics. -/
def nilPointerFileInfo : FsFileInfoWrapper :=
  ⟨none⟩

/-- The test struct `tOsFile`, a fake file; both fields may be nil. -/
structure tOsFile where
  statFileInfo : Option FsFileInfoWrapper
  statErr : Option GoError
  deriving DecidableEq, Repr

/-- The method `tOsFile.Stat`: it returns the two fields. -/
def tOsFile.Stat (file : tOsFile) : StatResult :=
  ⟨file.statFileInfo, file.statErr⟩

/-- The struct `tOsFile` seen through the interface `osFileWrapper`; its `Stat`
leaves the world as it is. -/
def tOsFile.toWrapper {W : Type} (file : tOsFile) : osFileWrapper W :=
  ⟨fun w => (file.Stat, w)⟩

/-- A fake that succeeds with the given mode:
`tOsFile{statFileInfo: tFsFileInfo{modeFileMode: m}}`. -/
def fakeWithMode (m : FileMode) : tOsFile :=
  ⟨some (tFsFileInfo.mk m).toWrapper, none⟩

/-- A fake that fails: `tOsFile{statErr: err}`. -/
def fakeWithErr (err : GoError) : tOsFile :=
  ⟨none, some err⟩

/-! ## A run of the process: replacements of `Stdout` and calls of `IsTTY` -/

/-- One thing a program does between and around calls of `IsTTY`. -/
inductive Action (W : Type) where
  /-- The assignment `gotty.Stdout = h`. -/
  | setStdout (h : osFileWrapper W)
  /-- A call `gotty.IsTTY()`. -/
  | callIsTTY
  /-- Anything that changes the world outside the package, such as the
  operating system redirecting or reopening the output. -/
  | outside (f : W → W)

/-- Runs the actions in order from the state `p` and collects the booleans the
calls of `IsTTY` return, oldest first, with the final state. A call that panics
ends the process: the run yields `none`. -/
def run {W : Type} : List (Action W) → Process W → Option (List Bool × Process W)
  | [], p => some ([], p)
  | Action.setStdout h :: rest, p => run rest { p with Stdout := h }
  | Action.outside f :: rest, p => run rest { p with world := f p.world }
  | Action.callIsTTY :: rest, p =>
    match IsTTY p with
    | (none, _) => none
    | (some b, p') => (run rest p').map (fun r => (b :: r.1, r.2))

/-! ## Vocabulary of the properties -/

/-- The character-device bit of a mode is set. -/
def hasCharDevice (m : FileMode) : Bool :=
  m.testBit charDeviceBit

/-- The modes of the scenarios of `TestIsTTYFalse`. -/
def falseScenarioModes : List FileMode :=
  [ModeDir, ModeAppend, ModeExclusive, ModeTemporary, ModeSymlink, ModeDevice,
   ModeNamedPipe, ModeSocket, ModeSetuid, ModeSetgid, ModeSticky, ModeIrregular]

/-! ## Fixtures used to instantiate the properties -/

/-- A process whose `Stdout` is the given fake; the world carries nothing. -/
def fakeProcess (file : tOsFile) : Process Unit :=
  ⟨file.toWrapper, ()⟩

/-- The mode of a terminal device as Unix reports it: `Dcrw--w----`. -/
def ttyMode : FileMode := ModeDevice ||| ModeCharDevice ||| 0o620

/-- An `os.File` whose `Stat()` reports a terminal device. -/
def ttyFile : OsFile Unit :=
  ⟨fun w => (Except.ok ⟨ttyMode⟩, w)⟩

/-- An `os.File` whose `Stat()` fails because the file is closed. -/
def closedFile : OsFile Unit :=
  ⟨fun w => (Except.error ErrClosed, w)⟩

/-! ## Lemmas shared by the properties -/

/-- The bit test of `IsTTY` computes the character-device bit of the mode. -/
theorem land_charDevice_ne_zero (m : FileMode) :
    (m &&& ModeCharDevice != 0) = hasCharDevice m := by
  unfold ModeCharDevice hasCharDevice
  rw [Nat.one_shiftLeft, Nat.and_two_pow]
  cases h : m.testBit charDeviceBit <;> simp [charDeviceBit]

/-- The result of `IsTTY` when `Stat` succeeds with a non-nil file info whose
`Mode()` returns the mode `m`. -/
theorem IsTTY_of_ok {W : Type} (p : Process W) (fi : FsFileInfoWrapper)
    (m : FileMode) (w' : W)
    (h : p.Stdout.Stat p.world = (⟨some fi, none⟩, w')) (hm : fi.Mode = some m) :
    IsTTY p = (some (hasCharDevice m), { p with world := w' }) := by
  simp only [IsTTY, h, hm, land_charDevice_ne_zero]

/-- The result of `IsTTY` when `Stat` succeeds with a non-nil file info whose
`Mode()` panics. -/
theorem IsTTY_of_mode_panic {W : Type} (p : Process W) (fi : FsFileInfoWrapper)
    (w' : W) (h : p.Stdout.Stat p.world = (⟨some fi, none⟩, w'))
    (hm : fi.Mode = none) :
    IsTTY p = (none, { p with world := w' }) := by
  simp only [IsTTY, h, hm]

/-- The result of `IsTTY` when `Stat` returns an error. -/
theorem IsTTY_of_err {W : Type} (p : Process W) (fi : Option FsFileInfoWrapper)
    (err : GoError) (w' : W)
    (h : p.Stdout.Stat p.world = (⟨fi, some err⟩, w')) :
    IsTTY p = (some false, { p with world := w' }) := by
  simp only [IsTTY, h]

/-- The result of `IsTTY` when `Stat` returns a nil file info and a nil error. -/
theorem IsTTY_of_nil {W : Type} (p : Process W) (w' : W)
    (h : p.Stdout.Stat p.world = (⟨none, none⟩, w')) :
    IsTTY p = (none, { p with world := w' }) := by
  simp only [IsTTY, h]

/-- A call of `IsTTY` leaves the package variable `Stdout` as it was. -/
theorem IsTTY_snd_Stdout {W : Type} (p : Process W) :
    (IsTTY p).2.Stdout = p.Stdout := by
  unfold IsTTY
  split
  · split
    · split <;> rfl
    · rfl
  · rfl

/-- The world a call of `IsTTY` leaves behind is the one `Stat` left. -/
theorem IsTTY_snd_world {W : Type} (p : Process W) :
    (IsTTY p).2.world = (p.Stdout.Stat p.world).2 := by
  unfold IsTTY
  split
  · split
    · split <;> simp_all
    · simp_all
  · simp_all

/-- Two calls of `IsTTY` whose `Stat` has the same outcome give the same answer. -/
theorem IsTTY_fst_congr {W₁ W₂ : Type} (p : Process W₁) (q : Process W₂)
    (h : (p.Stdout.Stat p.world).1 = (q.Stdout.Stat q.world).1) :
    (IsTTY p).1 = (IsTTY q).1 := by
  rcases hp : p.Stdout.Stat p.world with ⟨⟨fi, err⟩, w₁⟩
  rcases hq : q.Stdout.Stat q.world with ⟨⟨fi', err'⟩, w₂⟩
  rw [hp, hq] at h
  simp only [StatResult.mk.injEq] at h
  obtain ⟨rfl, rfl⟩ := h
  cases err with
  | some e => rw [IsTTY_of_err p fi e w₁ hp, IsTTY_of_err q fi e w₂ hq]
  | none =>
    cases fi with
    | some f =>
      cases hm : f.Mode with
      | some m => rw [IsTTY_of_ok p f m w₁ hp hm, IsTTY_of_ok q f m w₂ hq hm]
      | none => rw [IsTTY_of_mode_panic p f w₁ hp hm, IsTTY_of_mode_panic q f w₂ hq hm]
    | none => rw [IsTTY_of_nil p w₁ hp, IsTTY_of_nil q w₂ hq]

/-- A run of two lists of actions is the run of the first followed by the run
of the second from the state the first one reached. -/
theorem run_append {W : Type} (xs ys : List (Action W)) (p : Process W) :
    run (xs ++ ys) p =
      (run xs p).bind (fun r => (run ys r.2).map (fun r' => (r.1 ++ r'.1, r'.2))) := by
  induction xs generalizing p with
  | nil =>
    simp only [List.nil_append, run, Option.some_bind, List.nil_append]
    cases run ys p <;> rfl
  | cons a rest ih =>
    cases a with
    | setStdout h =>
      rw [List.cons_append]
      simp only [run]
      exact ih _
    | outside f =>
      rw [List.cons_append]
      simp only [run]
      exact ih _
    | callIsTTY =>
      rw [List.cons_append]
      simp only [run]
      rcases IsTTY p with ⟨_ | b, p'⟩
      · rfl
      · simp only [ih p']
        cases run rest p' with
        | none => rfl
        | some r =>
          simp only [Option.some_bind, Option.map_some', Option.map_map]
          cases run ys r.2 <;> rfl

/-- A run that starts with a call of `IsTTY`: a panic ends it, otherwise the
answer of the call precedes the answers of the rest of the run. -/
theorem run_cons_call {W : Type} (rest : List (Action W)) (p : Process W) :
    (run (Action.callIsTTY :: rest) p).map Prod.fst
      = (IsTTY p).1.bind
          (fun b => ((run rest (IsTTY p).2).map Prod.fst).map (fun bs => b :: bs)) := by
  rw [run]
  rcases IsTTY p with ⟨_ | b, p'⟩
  · rfl
  · dsimp only
    cases run rest p' <;> rfl

/-- A run that ends with one more call of `IsTTY`: the earlier answers followed
by the answer of that call in the state reached. -/
theorem run_append_call {W : Type} (pre : List (Action W)) (p s : Process W)
    (rs : List Bool) (h : run pre p = some (rs, s)) :
    (run (pre ++ [Action.callIsTTY]) p).map Prod.fst
      = (IsTTY s).1.map (fun b => rs ++ [b]) := by
  rw [run_append, h]
  simp only [Option.some_bind, run]
  rcases hcall : IsTTY s with ⟨_ | b, s'⟩ <;> rfl

/-- A mode that contains `ModeCharDevice` has the character-device bit. -/
theorem hasCharDevice_lor (other : FileMode) :
    hasCharDevice (ModeCharDevice ||| other) = true := by
  unfold hasCharDevice ModeCharDevice
  rw [Nat.one_shiftLeft, Nat.testBit_or, Nat.testBit_two_pow_self, Bool.true_or]

/-- No mode of the scenarios of `TestIsTTYFalse` has the character-device bit. -/
theorem hasCharDevice_falseScenarioModes (m : FileMode) (h : m ∈ falseScenarioModes) :
    hasCharDevice m = false := by
  simp only [falseScenarioModes, List.mem_cons, List.mem_singleton, List.mem_nil_iff,
    or_false] at h
  rcases h with h | h | h | h | h | h | h | h | h | h | h | h <;> subst h <;> decide

/-! ## Properties of a single call -/

/-- C1: when `Stat` succeeds (nil error) with a file info of a mode that does
not have the character-device bit, `IsTTY` returns false; this covers each mode
of the scenarios of `TestIsTTYFalse`. -/
theorem IsTTY_false_of_not_charDevice {W : Type} (p : Process W)
    (fi : FsFileInfoWrapper) (m : FileMode) (w' : W)
    (hstat : p.Stdout.Stat p.world = (⟨some fi, none⟩, w'))
    (hfi : fi.Mode = some m)
    (hmode : hasCharDevice m = false ∨ m ∈ falseScenarioModes) :
    (IsTTY p).1 = some false := by
  have hbit : hasCharDevice m = false := by
    rcases hmode with h | h
    · exact h
    · exact hasCharDevice_falseScenarioModes _ h
  rw [IsTTY_of_ok p fi m w' hstat hfi, hbit]

/-- Instance of C1: the fake of the scenario "Stdout represents a named pipe". -/
theorem IsTTY_false_of_not_charDevice_witness :
    (fakeProcess (fakeWithMode ModeNamedPipe)).Stdout.Stat
        (fakeProcess (fakeWithMode ModeNamedPipe)).world
      = (⟨some ⟨some ModeNamedPipe⟩, none⟩, ()) ∧
    hasCharDevice ModeNamedPipe = false ∧
    (IsTTY (fakeProcess (fakeWithMode ModeNamedPipe))).1 = some false :=
  ⟨rfl, by decide,
    IsTTY_false_of_not_charDevice (fakeProcess (fakeWithMode ModeNamedPipe))
      ⟨some ModeNamedPipe⟩ ModeNamedPipe () rfl rfl (Or.inl (by decide))⟩

/-- C2: when `Stat` succeeds (nil error) with a file info of a mode that has
the character-device bit, `IsTTY` returns true; this covers the mode that is
exactly `ModeCharDevice` and every mode that combines it with other bits. -/
theorem IsTTY_true_of_charDevice {W : Type} (p : Process W)
    (fi : FsFileInfoWrapper) (m : FileMode) (w' : W)
    (hstat : p.Stdout.Stat p.world = (⟨some fi, none⟩, w'))
    (hfi : fi.Mode = some m)
    (hmode : hasCharDevice m = true ∨ m = ModeCharDevice ∨
      ∃ other : FileMode, m = ModeCharDevice ||| other) :
    (IsTTY p).1 = some true := by
  have hbit : hasCharDevice m = true := by
    rcases hmode with h | h | ⟨other, h⟩
    · exact h
    · rw [h]; decide
    · rw [h]; exact hasCharDevice_lor other
  rw [IsTTY_of_ok p fi m w' hstat hfi, hbit]

/-- Instance of C2: a fake that reports the mode of a terminal device. -/
theorem IsTTY_true_of_charDevice_witness :
    (fakeProcess (fakeWithMode ttyMode)).Stdout.Stat
        (fakeProcess (fakeWithMode ttyMode)).world
      = (⟨some ⟨some ttyMode⟩, none⟩, ()) ∧
    hasCharDevice ttyMode = true ∧
    (IsTTY (fakeProcess (fakeWithMode ttyMode))).1 = some true :=
  ⟨rfl, by decide,
    IsTTY_true_of_charDevice (fakeProcess (fakeWithMode ttyMode))
      ⟨some ttyMode⟩ ttyMode () rfl rfl (Or.inl (by decide))⟩

/-- C3: when `Stat` returns a non-nil error, `IsTTY` returns the boolean false,
whatever file info (nil, of any mode, or one whose `Mode()` would panic) came
with the error. -/
theorem IsTTY_false_of_error {W : Type} (p : Process W)
    (fi : Option FsFileInfoWrapper) (err : GoError) (w' : W)
    (hstat : p.Stdout.Stat p.world = (⟨fi, some err⟩, w')) :
    (IsTTY p).1 = some false := by
  rw [IsTTY_of_err p fi err w' hstat]

/-- Instance of C3: a fake that returns a character-device file info together
with `fs.ErrClosed`. -/
theorem IsTTY_false_of_error_witness :
    (fakeProcess ⟨some ⟨some ModeCharDevice⟩, some ErrClosed⟩).Stdout.Stat
        (fakeProcess ⟨some ⟨some ModeCharDevice⟩, some ErrClosed⟩).world
      = (⟨some ⟨some ModeCharDevice⟩, some ErrClosed⟩, ()) ∧
    (IsTTY (fakeProcess ⟨some ⟨some ModeCharDevice⟩, some ErrClosed⟩)).1 = some false :=
  ⟨rfl,
    IsTTY_false_of_error (fakeProcess ⟨some ⟨some ModeCharDevice⟩, some ErrClosed⟩)
      (some ⟨some ModeCharDevice⟩) ErrClosed () rfl⟩

/-- C4, the code at the failing input: the zero value `tOsFile{}` returns a nil
file info with a nil error; `IsTTY` then calls `Mode()` on the nil interface and
panics instead of returning false, so `IsTTY` does not return a boolean for
every result of `Stat`. A non-nil file info holding a nil pointer, returned with
a nil error, makes it panic in the same statement. -/
theorem IsTTY_panics_on_nil_file_info :
    (IsTTY (fakeProcess ⟨none, none⟩)).1 = none ∧
    (IsTTY (fakeProcess ⟨some nilPointerFileInfo, none⟩)).1 = none ∧
    ¬ (∀ p : Process Unit, ∃ b : Bool, (IsTTY p).1 = some b) := by
  refine ⟨rfl, rfl, fun h => ?_⟩
  obtain ⟨b, hb⟩ := h (fakeProcess ⟨none, none⟩)
  have hnone : (IsTTY (fakeProcess ⟨none, none⟩)).1 = none := rfl
  rw [hnone] at hb
  exact Option.noConfusion hb

/-- C5: two handles whose `Stat` succeeds with modes that agree on the
character-device bit get the same answer from `IsTTY`, whatever the other bits
of the two modes are. -/
theorem IsTTY_depends_only_on_charDevice {W₁ W₂ : Type} (p₁ : Process W₁)
    (p₂ : Process W₂) (fi₁ fi₂ : FsFileInfoWrapper) (m₁ m₂ : FileMode)
    (w₁ : W₁) (w₂ : W₂)
    (hstat₁ : p₁.Stdout.Stat p₁.world = (⟨some fi₁, none⟩, w₁))
    (hstat₂ : p₂.Stdout.Stat p₂.world = (⟨some fi₂, none⟩, w₂))
    (hfi₁ : fi₁.Mode = some m₁) (hfi₂ : fi₂.Mode = some m₂)
    (hagree : hasCharDevice m₁ = hasCharDevice m₂) :
    (IsTTY p₁).1 = (IsTTY p₂).1 := by
  rw [IsTTY_of_ok p₁ fi₁ m₁ w₁ hstat₁ hfi₁, IsTTY_of_ok p₂ fi₂ m₂ w₂ hstat₂ hfi₂, hagree]

/-- Instance of C5: a directory with permission bits and a setuid socket. -/
theorem IsTTY_depends_only_on_charDevice_witness :
    hasCharDevice (ModeDir ||| 0o755) = hasCharDevice (ModeSocket ||| ModeSetuid) ∧
    (IsTTY (fakeProcess (fakeWithMode (ModeDir ||| 0o755)))).1
      = (IsTTY (fakeProcess (fakeWithMode (ModeSocket ||| ModeSetuid)))).1 :=
  ⟨by decide,
    IsTTY_depends_only_on_charDevice
      (fakeProcess (fakeWithMode (ModeDir ||| 0o755)))
      (fakeProcess (fakeWithMode (ModeSocket ||| ModeSetuid)))
      ⟨some (ModeDir ||| 0o755)⟩ ⟨some (ModeSocket ||| ModeSetuid)⟩
      (ModeDir ||| 0o755) (ModeSocket ||| ModeSetuid) () () rfl rfl rfl rfl (by decide)⟩

/-- C8: a call of `IsTTY` has no effect of its own on the process state: the
package variable `Stdout` holds the same handle after the call as before, on
every path, and the world is the one the `Stat` query left. -/
theorem IsTTY_no_side_effect {W : Type} (p : Process W) :
    (IsTTY p).2.Stdout = p.Stdout ∧
    (IsTTY p).2.world = (p.Stdout.Stat p.world).2 :=
  ⟨IsTTY_snd_Stdout p, IsTTY_snd_world p⟩

/-- C9: `osFile.Stat` surfaces the outcome of the wrapped file: an error comes
back unchanged with a nil file info, a success comes back with a nil error and a
wrapper whose `Mode()` returns the same mode; so with the default `Stdout`,
`IsTTY` returns a boolean that is true exactly when the underlying stat succeeds
with a mode that has the character-device bit. -/
theorem osFile_Stat_surfaces {W : Type} (file : OsFile W) (w : W) :
    (∀ (err : GoError) (w' : W), file.Stat w = (Except.error err, w') →
      (osFile.mk file).Stat w = (⟨none, some err⟩, w')) ∧
    (∀ (fi : FileInfo) (w' : W), file.Stat w = (Except.ok fi, w') →
      ∃ wrapper : FsFileInfoWrapper,
        (osFile.mk file).Stat w = (⟨some wrapper, none⟩, w') ∧
          wrapper.Mode = some fi.Mode) ∧
    (∃ b : Bool, (IsTTY ⟨defaultStdout file, w⟩).1 = some b ∧
      (b = true ↔ ∃ (fi : FileInfo) (w' : W),
        file.Stat w = (Except.ok fi, w') ∧ hasCharDevice fi.Mode = true)) := by
  refine ⟨?_, ?_, ?_⟩
  · intro err w' h
    simp only [osFile.Stat, h]
  · intro fi w' h
    exact ⟨(fsFileInfo.mk (some fi)).toWrapper, by simp only [osFile.Stat, h], rfl⟩
  · rcases h : file.Stat w with ⟨_ | _, w'⟩
    case mk.error err =>
      have hstat : (defaultStdout file).Stat w = (⟨none, some err⟩, w') := by
        simp only [defaultStdout, osFile.toWrapper, osFile.Stat, h]
      refine ⟨false, ?_, ?_⟩
      · rw [IsTTY_of_err ⟨defaultStdout file, w⟩ none err w' hstat]
      · constructor
        · intro hb
          exact Bool.noConfusion hb
        · rintro ⟨fi, w'', hfi, _⟩
          simp only [Prod.mk.injEq] at hfi
          exact Except.noConfusion hfi.1
    case mk.ok fi =>
      have hstat : (defaultStdout file).Stat w
          = (⟨some (fsFileInfo.mk (some fi)).toWrapper, none⟩, w') := by
        simp only [defaultStdout, osFile.toWrapper, osFile.Stat, h]
      refine ⟨hasCharDevice fi.Mode, ?_, ?_⟩
      · rw [IsTTY_of_ok ⟨defaultStdout file, w⟩ _ fi.Mode w' hstat rfl]
      · constructor
        · intro hb
          exact ⟨fi, w', rfl, hb⟩
        · rintro ⟨fi', w'', hfi, hbit⟩
          simp only [Prod.mk.injEq, Except.ok.injEq] at hfi
          rw [hfi.1]
          exact hbit

/-- Instance of C9: a closed file is reported with its error, a terminal with
its mode, and `IsTTY` on the default `Stdout` of a terminal answers true. -/
theorem osFile_Stat_surfaces_witness :
    (osFile.mk closedFile).Stat () = (⟨none, some ErrClosed⟩, ()) ∧
    (∃ wrapper : FsFileInfoWrapper,
      (osFile.mk ttyFile).Stat () = (⟨some wrapper, none⟩, ()) ∧
        wrapper.Mode = some ttyMode) ∧
    (∃ b : Bool, (IsTTY ⟨defaultStdout ttyFile, ()⟩).1 = some b ∧
      (b = true ↔ ∃ (fi : FileInfo) (w' : Unit),
        ttyFile.Stat () = (Except.ok fi, w') ∧ hasCharDevice fi.Mode = true)) :=
  ⟨(osFile_Stat_surfaces closedFile ()).1 ErrClosed () rfl,
    (osFile_Stat_surfaces ttyFile ()).2.1 ⟨ttyMode⟩ () rfl,
    (osFile_Stat_surfaces ttyFile ()).2.2⟩

/-- C10 as stated fails: a `Stat` that returns, with a nil error, a non-nil
file info holding a nil pointer meets the condition "a non-nil file info
whenever the error is nil", and `IsTTY` panics on it when it calls `Mode()`. -/
theorem IsTTY_safe_counterexample :
    (((fakeProcess ⟨some nilPointerFileInfo, none⟩).Stdout.Stat
          (fakeProcess ⟨some nilPointerFileInfo, none⟩).world).1.err = none →
      ((fakeProcess ⟨some nilPointerFileInfo, none⟩).Stdout.Stat
          (fakeProcess ⟨some nilPointerFileInfo, none⟩).world).1.fileInfo ≠ none) ∧
    (IsTTY (fakeProcess ⟨some nilPointerFileInfo, none⟩)).1 = none ∧
    ¬ (∀ p : Process Unit,
        ((p.Stdout.Stat p.world).1.err = none →
          (p.Stdout.Stat p.world).1.fileInfo ≠ none) →
        ∃ b : Bool, (IsTTY p).1 = some b) := by
  have hhyp : ((fakeProcess ⟨some nilPointerFileInfo, none⟩).Stdout.Stat
        (fakeProcess ⟨some nilPointerFileInfo, none⟩).world).1.err = none →
      ((fakeProcess ⟨some nilPointerFileInfo, none⟩).Stdout.Stat
        (fakeProcess ⟨some nilPointerFileInfo, none⟩).world).1.fileInfo ≠ none :=
    fun _ h => Option.noConfusion h
  have hnone : (IsTTY (fakeProcess ⟨some nilPointerFileInfo, none⟩)).1 = none := rfl
  refine ⟨hhyp, hnone, fun h => ?_⟩
  obtain ⟨b, hb⟩ := h (fakeProcess ⟨some nilPointerFileInfo, none⟩) hhyp
  rw [hnone] at hb
  exact Option.noConfusion hb

/-- C10 amended: `IsTTY` looks at the file info only when `Stat` reports no
error. If `Stat`, whenever it returns a nil error, returns a non-nil file info
whose `Mode()` returns a mode, then `IsTTY` returns a boolean (it does not
panic); on the error path `Mode()` is not called, so the answer is false
whatever came with the error, and a nil file info, which then comes with an
error, is answered with false. -/
theorem IsTTY_safe_of_info_on_success {W : Type} (p : Process W)
    (hinfo : (p.Stdout.Stat p.world).1.err = none →
      ∃ (fi : FsFileInfoWrapper) (m : FileMode),
        (p.Stdout.Stat p.world).1.fileInfo = some fi ∧ fi.Mode = some m) :
    (∃ b : Bool, (IsTTY p).1 = some b) ∧
    ((p.Stdout.Stat p.world).1.err ≠ none → (IsTTY p).1 = some false) ∧
    ((p.Stdout.Stat p.world).1.fileInfo = none → (IsTTY p).1 = some false) := by
  rcases hs : p.Stdout.Stat p.world with ⟨⟨fi, err⟩, w'⟩
  rw [hs] at hinfo
  cases err with
  | some e =>
    rw [IsTTY_of_err p fi e w' hs]
    exact ⟨⟨false, rfl⟩, fun _ => rfl, fun _ => rfl⟩
  | none =>
    obtain ⟨f, m, hf, hm⟩ := hinfo rfl
    simp only at hf
    subst hf
    rw [IsTTY_of_ok p f m w' hs hm]
    exact ⟨⟨_, rfl⟩, fun h => absurd rfl h, fun h => Option.noConfusion h⟩

/-- Instance of C10 amended: the fake `tOsFile{statErr: fs.ErrClosed}` of the
tests, which returns a nil file info together with an error. -/
theorem IsTTY_safe_of_info_on_success_witness :
    (((fakeProcess (fakeWithErr ErrClosed)).Stdout.Stat
          (fakeProcess (fakeWithErr ErrClosed)).world).1.err = none →
      ∃ (fi : FsFileInfoWrapper) (m : FileMode),
        ((fakeProcess (fakeWithErr ErrClosed)).Stdout.Stat
          (fakeProcess (fakeWithErr ErrClosed)).world).1.fileInfo = some fi ∧
        fi.Mode = some m) ∧
    (∃ b : Bool, (IsTTY (fakeProcess (fakeWithErr ErrClosed))).1 = some b) ∧
    (IsTTY (fakeProcess (fakeWithErr ErrClosed))).1 = some false :=
  ⟨fun h => Option.noConfusion h,
    (IsTTY_safe_of_info_on_success (fakeProcess (fakeWithErr ErrClosed))
      (fun h => Option.noConfusion h)).1,
    (IsTTY_safe_of_info_on_success (fakeProcess (fakeWithErr ErrClosed))
      (fun h => Option.noConfusion h)).2.2 rfl⟩

/-! ## Properties of a run -/

/-- C6: `IsTTY` keeps nothing between calls. In every run of replacements of
`Stdout`, changes of the world and calls, the answer of a call is a function of
the `Stat` outcome of the handle current at that call alone; after `Stdout` is
replaced by a handle whose `Stat` succeeds with a file info of mode `m`, the
next call answers whether `m` has the character-device bit (true if it has,
false if not), and after it is replaced by a handle whose `Stat` fails the next
call answers false. -/
theorem IsTTY_fresh_query :
    (∃ verdict : StatResult → Option Bool,
      ∀ (W : Type) (pre : List (Action W)) (p s : Process W) (rs : List Bool),
        run pre p = some (rs, s) →
        (run (pre ++ [Action.callIsTTY]) p).map Prod.fst
          = (verdict (s.Stdout.Stat s.world).1).map (fun b => rs ++ [b])) ∧
    (∀ (W : Type) (pre : List (Action W)) (p s : Process W) (rs : List Bool)
        (h : osFileWrapper W) (fi : FsFileInfoWrapper) (m : FileMode) (w' : W),
        run pre p = some (rs, s) →
        h.Stat s.world = (⟨some fi, none⟩, w') →
        fi.Mode = some m →
        (run (pre ++ [Action.setStdout h, Action.callIsTTY]) p).map Prod.fst
          = some (rs ++ [hasCharDevice m])) ∧
    (∀ (W : Type) (pre : List (Action W)) (p s : Process W) (rs : List Bool)
        (h : osFileWrapper W) (fi : Option FsFileInfoWrapper) (err : GoError) (w' : W),
        run pre p = some (rs, s) →
        h.Stat s.world = (⟨fi, some err⟩, w') →
        (run (pre ++ [Action.setStdout h, Action.callIsTTY]) p).map Prod.fst
          = some (rs ++ [false])) := by
  refine ⟨⟨fun r => (IsTTY (fakeProcess ⟨r.fileInfo, r.err⟩)).1, ?_⟩, ?_, ?_⟩
  · intro W pre p s rs hpre
    rw [run_append_call pre p s rs hpre]
    congr 1
    exact IsTTY_fst_congr s _ rfl
  · intro W pre p s rs h fi m w' hpre hstat hfi
    rw [run_append, hpre]
    simp only [Option.some_bind, run]
    rw [IsTTY_of_ok ⟨h, s.world⟩ fi m w' hstat hfi]
    rfl
  · intro W pre p s rs h fi err w' hpre hstat
    rw [run_append, hpre]
    simp only [Option.some_bind, run]
    rw [IsTTY_of_err ⟨h, s.world⟩ fi err w' hstat]
    rfl

/-- Instance of C6: after a failing fake and a directory fake were current, a
fake reporting a terminal is installed and the next call answers true; a
failing fake is installed after that and the next call answers false. -/
theorem IsTTY_fresh_query_witness :
    (run [Action.setStdout (fakeWithMode ModeDir).toWrapper, Action.callIsTTY,
          Action.setStdout (fakeWithMode ttyMode).toWrapper, Action.callIsTTY]
        (fakeProcess (fakeWithErr ErrClosed))).map Prod.fst = some [false, true] ∧
    (run [Action.setStdout (fakeWithMode ttyMode).toWrapper, Action.callIsTTY,
          Action.setStdout (fakeWithErr ErrClosed).toWrapper, Action.callIsTTY]
        (fakeProcess (fakeWithMode ModeDir))).map Prod.fst = some [true, false] :=
  ⟨IsTTY_fresh_query.2.1 Unit
      [Action.setStdout (fakeWithMode ModeDir).toWrapper, Action.callIsTTY]
      (fakeProcess (fakeWithErr ErrClosed)) (fakeProcess (fakeWithMode ModeDir)) [false]
      (fakeWithMode ttyMode).toWrapper ⟨some ttyMode⟩ ttyMode () rfl rfl rfl,
    IsTTY_fresh_query.2.2 Unit
      [Action.setStdout (fakeWithMode ttyMode).toWrapper, Action.callIsTTY]
      (fakeProcess (fakeWithMode ModeDir)) (fakeProcess (fakeWithMode ttyMode)) [true]
      (fakeWithErr ErrClosed).toWrapper none ErrClosed () rfl rfl⟩

/-- C7: `IsTTY` is idempotent. For a handle whose `Stat` has the same outcome
on every call, any number of repeated calls with `Stdout` left unchanged all
return what the first call returns. -/
theorem IsTTY_idempotent {W : Type} (p : Process W)
    (hconst : ∀ w₁ w₂ : W, (p.Stdout.Stat w₁).1 = (p.Stdout.Stat w₂).1) (n : Nat) :
    (run (List.replicate (n + 1) Action.callIsTTY) p).map Prod.fst
      = (IsTTY p).1.map (List.replicate (n + 1)) := by
  induction n generalizing p with
  | zero =>
    simp only [List.replicate, run]
    rcases IsTTY p with ⟨_ | b, p'⟩ <;> rfl
  | succ n ih =>
    have hStdout : (IsTTY p).2.Stdout = p.Stdout := IsTTY_snd_Stdout p
    have hconst' : ∀ w₁ w₂ : W,
        ((IsTTY p).2.Stdout.Stat w₁).1 = ((IsTTY p).2.Stdout.Stat w₂).1 := by
      rw [hStdout]
      exact hconst
    have hsame : (IsTTY (IsTTY p).2).1 = (IsTTY p).1 :=
      IsTTY_fst_congr (IsTTY p).2 p (by rw [hStdout]; exact hconst _ _)
    rw [List.replicate_succ, run_cons_call, ih (IsTTY p).2 hconst', hsame]
    cases (IsTTY p).1 <;> rfl

/-- Instance of C7: three calls on the fake that reports a terminal. -/
theorem IsTTY_idempotent_witness :
    (∀ w₁ w₂ : Unit,
      ((fakeProcess (fakeWithMode ttyMode)).Stdout.Stat w₁).1
        = ((fakeProcess (fakeWithMode ttyMode)).Stdout.Stat w₂).1) ∧
    (run (List.replicate 3 Action.callIsTTY) (fakeProcess (fakeWithMode ttyMode))).map
        Prod.fst = some [true, true, true] :=
  ⟨fun _ _ => rfl,
    IsTTY_idempotent (fakeProcess (fakeWithMode ttyMode)) (fun _ _ => rfl) 2⟩

end Gotty
